import Mathlib

set_option maxRecDepth 4000
set_option maxHeartbeats 1000000

/-!
Verification of the notilius platform-api middleware pipeline.

Shallow embedding of:
- the error taxonomy and error-interception middleware
  (platform-api/internal/middleware/error.go), and
- the request-logging / trace-identifier middleware and the main middleware
  chain (cmd main).

Go errors are modelled as a sum of AppError and an opaque error text; the
gin context key store is an association list; wall-clock sampling, used by
randomString, is an explicit stream of UnixNano values.
-/

namespace Notilius

/-- net/http status constant used by the factories. -/
def StatusBadRequest : Nat := 400

/-- net/http status constant used by the factories. -/
def StatusUnauthorized : Nat := 401

/-- net/http status constant used by the factories. -/
def StatusNotFound : Nat := 404

/-- net/http status constant used by the factories. -/
def StatusConflict : Nat := 409

/-- net/http status constant used by the factories. -/
def StatusInternalServerError : Nat := 500

/-- AppError from error.go.  Go map values under Details are strings in every
use in the repository; the underlying error Err is modelled by its text. -/
structure AppError where
  Code : String
  Message : String
  StatusCode : Nat
  Details : Option (List (String × String))
  Err : Option String
deriving DecidableEq

/-- The Error method of AppError returns its Message. -/
def AppError.ErrorString (e : AppError) : String := e.Message

/-- NewValidationError from error.go. -/
def NewValidationError (field reason : String) : AppError :=
  { Code := "VALIDATION_ERROR"
    Message := "Invalid request: " ++ reason
    StatusCode := StatusBadRequest
    Details := some [("field", field)]
    Err := none }

/-- NewNotFoundError from error.go. -/
def NewNotFoundError (resource : String) : AppError :=
  { Code := "NOT_FOUND"
    Message := resource ++ " not found"
    StatusCode := StatusNotFound
    Details := none
    Err := none }

/-- NewConflictError from error.go. -/
def NewConflictError (reason : String) : AppError :=
  { Code := "CONFLICT"
    Message := reason
    StatusCode := StatusConflict
    Details := none
    Err := none }

/-- NewInternalError from error.go; the cause is kept only in Err. -/
def NewInternalError (cause : String) : AppError :=
  { Code := "INTERNAL_ERROR"
    Message := "An internal error occurred"
    StatusCode := StatusInternalServerError
    Details := none
    Err := some cause }

/-- NewUnauthorizedError from error.go. -/
def NewUnauthorizedError (reason : String) : AppError :=
  { Code := "UNAUTHORIZED"
    Message := reason
    StatusCode := StatusUnauthorized
    Details := none
    Err := none }

/-- A Go error recorded on the gin context: either an AppError (matched by
errors.As in handleError) or an error of any other dynamic type, modelled by
its Error() text. -/
inductive GoError where
  | app : AppError → GoError
  | other : String → GoError
deriving DecidableEq

/-- Error() text of a recorded error. -/
def GoError.ErrorString : GoError → String
  | .app a => a.ErrorString
  | .other s => s

/-- ErrorResponse from error.go; traceId and details carry omitempty, so the
empty string and none stand for an omitted field. -/
structure ErrorResponse where
  error : String
  message : String
  statusCode : Nat
  traceId : String
  details : Option (List (String × String))
deriving DecidableEq

/-- slog severities used by the middleware. -/
inductive LogLevel where
  | debug
  | info
  | warn
  | error
deriving DecidableEq

/-- One structured log record: severity, message, attribute pairs. -/
structure LogRecord where
  level : LogLevel
  msg : String
  attrs : List (String × String)
deriving DecidableEq

/-- A value stored in the gin context key store: the middleware stores
strings; nonString stands for a value of any other dynamic type. -/
inductive CtxValue where
  | str : String → CtxValue
  | nonString : CtxValue
deriving DecidableEq

/-- The gin context key store written by c.Set and read by c.Get. -/
abbrev CtxKeys := List (String × CtxValue)

/-- c.Set: the newest binding shadows older ones. -/
def ctxSet (keys : CtxKeys) (k : String) (v : CtxValue) : CtxKeys :=
  (k, v) :: keys

/-- c.Get. -/
def ctxGet (keys : CtxKeys) (k : String) : Option CtxValue :=
  keys.lookup k

/-- getTraceID from error.go: returns the empty string when the key is
unset; the unchecked type assertion to string faults (none) when the stored
value is not a string. -/
def getTraceID (keys : CtxKeys) : Option String :=
  match ctxGet keys "traceId" with
  | some (.str s) => some s
  | some .nonString => none
  | none => some ""

/-- The ErrorResponse built by handleError for an AppError. -/
def renderAppError (ae : AppError) (tid : String) : ErrorResponse :=
  { error := ae.Code
    message := ae.Message
    statusCode := ae.StatusCode
    traceId := tid
    details := ae.Details }

/-- The fixed envelope used for panics and unrecognized errors. -/
def internalErrorResponse (tid : String) : ErrorResponse :=
  { error := "INTERNAL_ERROR"
    message := "An unexpected error occurred"
    statusCode := StatusInternalServerError
    traceId := tid
    details := none }

/-- handleError from error.go: takes the recorded error list, reads its last
element and the trace id, and produces the HTTP status, the JSON envelope
and the log record it emits.  none models the two faulting paths: an empty
error list (nil dereference of Last) and a failed trace type assertion. -/
def handleError (keys : CtxKeys) (errs : List GoError) :
    Option (Nat × ErrorResponse × LogRecord) :=
  match errs.getLast?, getTraceID keys with
  | some (.app ae), some tid =>
      some (ae.StatusCode, renderAppError ae tid,
        ⟨.warn, "application error",
          [("code", ae.Code), ("message", ae.Message),
           ("statusCode", toString ae.StatusCode)]⟩)
  | some (.other s), some tid =>
      some (StatusInternalServerError, internalErrorResponse tid,
        ⟨.error, "unknown error", [("error", s)]⟩)
  | _, _ => none

/-- The byte alphabet of randomString. -/
def charset : String :=
  "abcdefghijklmnopqrstuvwxyzABCDEFGHIJKLMNOPQRSTUVWXYZ0123456789"

/-- randomString from the cmd main file: each byte is
charset at (UnixNano mod len charset), re-sampling the wall clock at every
iteration.  The clock stream gives the UnixNano value observed at the i-th
sample. -/
def randomString (clock : Nat → Nat) (length : Nat) : String :=
  String.mk ((List.range length).map fun i =>
    charset.toList.getD (clock i % charset.toList.length) 'a')

/-- Case-insensitive header-name comparison (net/http canonicalizes header
names, so lookup ignores case). -/
def headerNamesMatch (a b : String) : Bool :=
  a.toList.map Char.toLower == b.toList.map Char.toLower

/-- c.GetHeader: net/http header lookup is case-insensitive in the header
name. -/
def getHeader (headers : List (String × String)) (name : String) : String :=
  match headers.find? (fun p => headerNamesMatch p.1 name) with
  | some p => p.2
  | none => ""

/-- An inbound HTTP request as seen by the middleware chain. -/
structure Request where
  method : String
  path : String
  headers : List (String × String)
  clientIP : String
deriving DecidableEq

/-- A response body: nothing written, a JSON error envelope written by the
middleware, or any payload written by a handler. -/
inductive Body where
  | empty
  | json : ErrorResponse → Body
  | payload : String → Body
deriving DecidableEq

/-- What a handler invocation did when it returned normally: the errors it
recorded via c.Error, and the status and body it wrote. -/
structure HandlerRun where
  errors : List GoError
  status : Nat
  body : Body
deriving DecidableEq

/-- A handler invocation either returns normally or panics with a value
(modelled by its text), possibly after recording some errors. -/
inductive Outcome where
  | ok : HandlerRun → Outcome
  | panicked : String → List GoError → Outcome
deriving DecidableEq

/-- Everything observable after the middleware chain handled one request. -/
structure ChainResult where
  status : Nat
  body : Body
  respHeaders : List (String × String)
  logs : List LogRecord
  keys : CtxKeys
  panicEscaped : Option String
deriving DecidableEq

/-- The trace identifier chosen by requestLoggingMiddleware: the inbound
X-Trace-ID header when non-empty, otherwise randomString 16.  Sample 0 of
the clock stream is the start timestamp, so the generator consumes samples
from index 1. -/
def chainTraceID (clock : Nat → Nat) (req : Request) : String :=
  let inbound := getHeader req.headers "X-Trace-ID"
  if inbound = "" then randomString (fun i => clock (i + 1)) 16 else inbound

/-- The context key store after requestLoggingMiddleware ran c.Set. -/
def chainKeys (clock : Nat → Nat) (req : Request) : CtxKeys :=
  ctxSet [] "traceId" (CtxValue.str (chainTraceID clock req))

/-- The middleware chain exactly as registered in main:
ErrorHandlerMiddleware first, then requestLoggingMiddleware, then the route
handler.  ErrorHandlerMiddleware installs its deferred recover, delegates;
requestLoggingMiddleware assigns the trace id, sets the response header,
delegates to the handler, and logs on return; back in
ErrorHandlerMiddleware, a recorded error is rendered by handleError.  When
the handler panics, the unwind skips the log line of
requestLoggingMiddleware (it has no deferred teardown) and is caught by the
deferred recover, which responds with the fixed internal-error envelope. -/
def runChain (clock : Nat → Nat) (handler : Request → Outcome)
    (req : Request) : ChainResult :=
  let traceID := chainTraceID clock req
  let keys : CtxKeys := chainKeys clock req
  let respHeaders := [("X-Trace-ID", traceID)]
  match handler req with
  | .panicked v _ =>
      let panicLog : LogRecord := ⟨.error, "panic recovered", [("panic", v)]⟩
      match getTraceID keys with
      | some tid =>
          { status := StatusInternalServerError
            body := .json (internalErrorResponse tid)
            respHeaders := respHeaders
            logs := [panicLog]
            keys := keys
            panicEscaped := none }
      | none =>
          { status := 0, body := .empty, respHeaders := respHeaders
            logs := [panicLog], keys := keys, panicEscaped := some v }
  | .ok run =>
      let durationMs := (clock 17 - clock 0) / 1000000
      let reqLog : LogRecord := ⟨.info, "HTTP request",
        [("method", req.method), ("path", req.path),
         ("status", toString run.status),
         ("duration_ms", toString durationMs),
         ("trace_id", traceID), ("ip", req.clientIP)]⟩
      if run.errors.isEmpty then
        { status := run.status, body := run.body, respHeaders := respHeaders
          logs := [reqLog], keys := keys, panicEscaped := none }
      else
        match handleError keys run.errors with
        | some (st, env, errLog) =>
            { status := st, body := .json env, respHeaders := respHeaders
              logs := [reqLog, errLog], keys := keys, panicEscaped := none }
        | none =>
            { status := run.status, body := run.body
              respHeaders := respHeaders, logs := [reqLog], keys := keys
              panicEscaped := some "failed trace type assertion" }

/-! Helper lemmas. -/

theorem ne_empty_of_length_pos (s : String) (h : 0 < s.length) : s ≠ "" := by
  intro he
  subst he
  exact absurd h (by decide)

theorem getTraceID_set (t : String) (rest : CtxKeys) :
    getTraceID (("traceId", CtxValue.str t) :: rest) = some t := by
  simp [getTraceID, ctxGet, List.lookup]

theorem getTraceID_chainKeys (clock : Nat → Nat) (req : Request) :
    getTraceID (chainKeys clock req) = some (chainTraceID clock req) :=
  getTraceID_set (chainTraceID clock req) []

theorem randomString_length (clock : Nat → Nat) (n : Nat) :
    (randomString clock n).length = n := by
  show ((List.range n).map _).length = n
  simp

theorem randomString_alphanum (clock : Nat → Nat) (n : Nat) :
    ∀ c ∈ (randomString clock n).toList, c.isAlphanum = true := by
  intro c hc
  have hc2 : c ∈ (List.range n).map
      (fun i => charset.toList.getD (clock i % charset.toList.length) 'a') :=
    hc
  obtain ⟨i, _, rfl⟩ := List.mem_map.mp hc2
  have hlt : clock i % charset.toList.length < charset.toList.length :=
    Nat.mod_lt _ (by decide)
  rw [List.getD_eq_getElem _ _ hlt]
  have hall : ∀ x ∈ charset.toList, x.isAlphanum = true := by decide
  exact hall _ (List.getElem_mem hlt)

theorem isEmpty_false_of_getLast (l : List GoError) (e : GoError)
    (h : l.getLast? = some e) : l.isEmpty = false := by
  cases l with
  | nil => simp at h
  | cons a t => simp

theorem handleError_congr (keys : CtxKeys) (errs1 errs2 : List GoError)
    (h : errs1.getLast? = errs2.getLast?) :
    handleError keys errs1 = handleError keys errs2 := by
  unfold handleError
  rw [h]

/-! Claim theorems. -/

/-- Claim C4 as stated is false: the conflict and unauthorized factories
copy the caller-supplied reason into Message, so the empty-string argument
yields an AppError with an empty Message. -/
theorem C4_counterexample :
    (NewConflictError "").Message = "" ∧
      (NewUnauthorizedError "").Message = "" :=
  ⟨rfl, rfl⟩

/-- Claim C4 (amended): every AppError built by the five factories has a
non-empty Code, and its StatusCode pairs semantically with its Code
(VALIDATION_ERROR with 400, NOT_FOUND with 404, CONFLICT with 409,
UNAUTHORIZED with 401, INTERNAL_ERROR with 500, each a valid 4xx or 5xx
status).  Message is non-empty for the validation, not-found and internal
factories for every argument, and for the conflict and unauthorized
factories whenever the supplied reason is non-empty. -/
theorem C4_factory_invariants (field reason reason2 resource cause : String) :
    ((NewValidationError field reason).Code = "VALIDATION_ERROR" ∧
     (NewValidationError field reason).StatusCode = 400 ∧
     (NewValidationError field reason).Message ≠ "") ∧
    ((NewNotFoundError resource).Code = "NOT_FOUND" ∧
     (NewNotFoundError resource).StatusCode = 404 ∧
     (NewNotFoundError resource).Message ≠ "") ∧
    ((NewConflictError reason).Code = "CONFLICT" ∧
     (NewConflictError reason).StatusCode = 409 ∧
     (reason ≠ "" → (NewConflictError reason).Message ≠ "")) ∧
    ((NewUnauthorizedError reason2).Code = "UNAUTHORIZED" ∧
     (NewUnauthorizedError reason2).StatusCode = 401 ∧
     (reason2 ≠ "" → (NewUnauthorizedError reason2).Message ≠ "")) ∧
    ((NewInternalError cause).Code = "INTERNAL_ERROR" ∧
     (NewInternalError cause).StatusCode = 500 ∧
     (NewInternalError cause).Message ≠ "") := by
  refine ⟨⟨rfl, rfl, ?_⟩, ⟨rfl, rfl, ?_⟩, ⟨rfl, rfl, fun h => h⟩,
    ⟨rfl, rfl, fun h => h⟩, ⟨rfl, rfl, ?_⟩⟩
  · apply ne_empty_of_length_pos
    show 0 < ("Invalid request: " ++ reason).length
    rw [String.length_append]
    have h17 : ("Invalid request: " : String).length = 17 := rfl
    omega
  · apply ne_empty_of_length_pos
    show 0 < (resource ++ " not found").length
    rw [String.length_append]
    have h10 : (" not found" : String).length = 10 := rfl
    omega
  · show ("An internal error occurred" : String) ≠ ""
    decide

/-- Witness for the amended C4 at concrete arguments. -/
theorem C4_factory_invariants_witness :
    ("conflict reason" : String) ≠ "" ∧
      (NewConflictError "conflict reason").Message ≠ "" :=
  ⟨by decide,
    (C4_factory_invariants "f" "conflict reason" "r2" "res" "c").2.2.1.2.2
      (by decide)⟩

/-- Claim C5: each factory returns exactly the documented code, status and
payload; NotFoundError formats the message as the resource followed by
" not found" (in particular "widget" gives "widget not found"); the cause
passed to NewInternalError is retained only in the Err field, which the
rendering to ErrorResponse never serializes. -/
theorem C5_factory_contract (field reason resource cause tid : String) :
    NewValidationError field reason =
      { Code := "VALIDATION_ERROR", Message := "Invalid request: " ++ reason,
        StatusCode := 400, Details := some [("field", field)],
        Err := none } ∧
    NewNotFoundError resource =
      { Code := "NOT_FOUND", Message := resource ++ " not found",
        StatusCode := 404, Details := none, Err := none } ∧
    NewNotFoundError "widget" =
      { Code := "NOT_FOUND", Message := "widget not found",
        StatusCode := 404, Details := none, Err := none } ∧
    NewConflictError reason =
      { Code := "CONFLICT", Message := reason, StatusCode := 409,
        Details := none, Err := none } ∧
    NewUnauthorizedError reason =
      { Code := "UNAUTHORIZED", Message := reason, StatusCode := 401,
        Details := none, Err := none } ∧
    NewInternalError cause =
      { Code := "INTERNAL_ERROR", Message := "An internal error occurred",
        StatusCode := 500, Details := none, Err := some cause } ∧
    renderAppError (NewInternalError cause) tid =
      { error := "INTERNAL_ERROR", message := "An internal error occurred",
        statusCode := 500, traceId := tid, details := none } :=
  ⟨rfl, rfl, rfl, rfl, rfl, rfl, rfl⟩

theorem runChain_keys (clock : Nat → Nat) (handler : Request → Outcome)
    (req : Request) :
    (runChain clock handler req).keys = chainKeys clock req := by
  cases hh : handler req with
  | panicked v es =>
      simp [runChain, hh, getTraceID_chainKeys]
  | ok run =>
      cases he : run.errors.isEmpty
      · rcases hhe : handleError (chainKeys clock req) run.errors with
          _ | ⟨st, env, lr⟩
        · simp [runChain, hh, he, hhe]
        · simp [runChain, hh, he, hhe]
      · simp [runChain, hh, he]

theorem runChain_respHeaders (clock : Nat → Nat)
    (handler : Request → Outcome) (req : Request) :
    (runChain clock handler req).respHeaders =
      [("X-Trace-ID", chainTraceID clock req)] := by
  cases hh : handler req with
  | panicked v es =>
      simp [runChain, hh, getTraceID_chainKeys]
  | ok run =>
      cases he : run.errors.isEmpty
      · rcases hhe : handleError (chainKeys clock req) run.errors with
          _ | ⟨st, env, lr⟩
        · simp [runChain, hh, he, hhe]
        · simp [runChain, hh, he, hhe]
      · simp [runChain, hh, he]

/-- Claim C1: when the handler (or any downstream code) panics, the error
middleware recovers it, logs one record at error severity carrying the
panic value, responds 500 with the INTERNAL_ERROR envelope carrying the
trace identifier of the request, and the fault never escapes the chain, so
the process keeps serving. -/
theorem C1_panic_recovery (clock : Nat → Nat) (handler : Request → Outcome)
    (req : Request) (v : String) (es : List GoError)
    (h : handler req = Outcome.panicked v es) :
    (runChain clock handler req).status = 500 ∧
    (runChain clock handler req).body =
      Body.json { error := "INTERNAL_ERROR",
                  message := "An unexpected error occurred",
                  statusCode := 500,
                  traceId := chainTraceID clock req,
                  details := none } ∧
    (runChain clock handler req).logs =
      [⟨LogLevel.error, "panic recovered", [("panic", v)]⟩] ∧
    (runChain clock handler req).panicEscaped = none := by
  simp [runChain, h, getTraceID_chainKeys, internalErrorResponse,
    StatusInternalServerError]

/-- Witness for C1: a concrete panicking handler. -/
theorem C1_panic_recovery_witness :
    (runChain (fun _ => 0) (fun _ => Outcome.panicked "boom" [])
        ⟨"GET", "/health", [], "127.0.0.1"⟩).status = 500 ∧
    (runChain (fun _ => 0) (fun _ => Outcome.panicked "boom" [])
        ⟨"GET", "/health", [], "127.0.0.1"⟩).body =
      Body.json { error := "INTERNAL_ERROR",
                  message := "An unexpected error occurred",
                  statusCode := 500,
                  traceId := chainTraceID (fun _ => 0)
                    ⟨"GET", "/health", [], "127.0.0.1"⟩,
                  details := none } ∧
    (runChain (fun _ => 0) (fun _ => Outcome.panicked "boom" [])
        ⟨"GET", "/health", [], "127.0.0.1"⟩).logs =
      [⟨LogLevel.error, "panic recovered", [("panic", "boom")]⟩] ∧
    (runChain (fun _ => 0) (fun _ => Outcome.panicked "boom" [])
        ⟨"GET", "/health", [], "127.0.0.1"⟩).panicEscaped = none :=
  C1_panic_recovery (fun _ => 0) (fun _ => Outcome.panicked "boom" [])
    ⟨"GET", "/health", [], "127.0.0.1"⟩ "boom" [] rfl

/-- Claim C2: when the last recorded error is not an AppError, the response
is exactly the fixed INTERNAL_ERROR envelope with status 500 and the
request trace identifier, independent of the error content, and the
original error text is logged at error severity. -/
theorem C2_unknown_error_envelope (clock : Nat → Nat)
    (handler : Request → Outcome) (req : Request) (run : HandlerRun)
    (s : String) (h : handler req = Outcome.ok run)
    (hl : run.errors.getLast? = some (GoError.other s)) :
    (runChain clock handler req).status = 500 ∧
    (runChain clock handler req).body =
      Body.json { error := "INTERNAL_ERROR",
                  message := "An unexpected error occurred",
                  statusCode := 500,
                  traceId := chainTraceID clock req,
                  details := none } ∧
    ⟨LogLevel.error, "unknown error", [("error", s)]⟩ ∈
      (runChain clock handler req).logs := by
  have hne := isEmpty_false_of_getLast run.errors _ hl
  have hsome : handleError (chainKeys clock req) run.errors =
      some (StatusInternalServerError,
        internalErrorResponse (chainTraceID clock req),
        ⟨LogLevel.error, "unknown error", [("error", s)]⟩) := by
    unfold handleError
    rw [hl, getTraceID_chainKeys]
  simp [runChain, h, hne, hsome, internalErrorResponse,
    StatusInternalServerError]

/-- Witness for C2: a concrete handler recording a plain error. -/
theorem C2_unknown_error_envelope_witness :
    (runChain (fun _ => 0)
        (fun _ => Outcome.ok ⟨[GoError.other "database exploded"], 200,
          Body.empty⟩)
        ⟨"GET", "/api/v1/status", [], "10.0.0.1"⟩).status = 500 ∧
    (runChain (fun _ => 0)
        (fun _ => Outcome.ok ⟨[GoError.other "database exploded"], 200,
          Body.empty⟩)
        ⟨"GET", "/api/v1/status", [], "10.0.0.1"⟩).body =
      Body.json { error := "INTERNAL_ERROR",
                  message := "An unexpected error occurred",
                  statusCode := 500,
                  traceId := chainTraceID (fun _ => 0)
                    ⟨"GET", "/api/v1/status", [], "10.0.0.1"⟩,
                  details := none } ∧
    ⟨LogLevel.error, "unknown error", [("error", "database exploded")]⟩ ∈
      (runChain (fun _ => 0)
        (fun _ => Outcome.ok ⟨[GoError.other "database exploded"], 200,
          Body.empty⟩)
        ⟨"GET", "/api/v1/status", [], "10.0.0.1"⟩).logs :=
  C2_unknown_error_envelope (fun _ => 0)
    (fun _ => Outcome.ok ⟨[GoError.other "database exploded"], 200,
      Body.empty⟩)
    ⟨"GET", "/api/v1/status", [], "10.0.0.1"⟩
    ⟨[GoError.other "database exploded"], 200, Body.empty⟩
    "database exploded" rfl rfl

/-- Claim C3: when the last recorded error is an AppError, the rendered
envelope copies its Code, Message, StatusCode and Details, the HTTP status
of the response equals the statusCode field of the body and both equal the
AppError StatusCode, and the middleware logs at warning severity. -/
theorem C3_apperror_envelope (clock : Nat → Nat)
    (handler : Request → Outcome) (req : Request) (run : HandlerRun)
    (ae : AppError) (h : handler req = Outcome.ok run)
    (hl : run.errors.getLast? = some (GoError.app ae)) :
    (runChain clock handler req).status = ae.StatusCode ∧
    (runChain clock handler req).body =
      Body.json { error := ae.Code,
                  message := ae.Message,
                  statusCode := ae.StatusCode,
                  traceId := chainTraceID clock req,
                  details := ae.Details } ∧
    ⟨LogLevel.warn, "application error",
        [("code", ae.Code), ("message", ae.Message),
         ("statusCode", toString ae.StatusCode)]⟩ ∈
      (runChain clock handler req).logs := by
  have hne := isEmpty_false_of_getLast run.errors _ hl
  have hsome : handleError (chainKeys clock req) run.errors =
      some (ae.StatusCode, renderAppError ae (chainTraceID clock req),
        ⟨LogLevel.warn, "application error",
          [("code", ae.Code), ("message", ae.Message),
           ("statusCode", toString ae.StatusCode)]⟩) := by
    unfold handleError
    rw [hl, getTraceID_chainKeys]
  simp [runChain, h, hne, hsome, renderAppError]

/-- Witness for C3: a concrete handler recording a not-found AppError. -/
theorem C3_apperror_envelope_witness :
    (runChain (fun _ => 0)
        (fun _ => Outcome.ok
          ⟨[GoError.app (NewNotFoundError "widget")], 200, Body.empty⟩)
        ⟨"GET", "/api/v1/widgets", [], "10.0.0.1"⟩).status =
      (NewNotFoundError "widget").StatusCode ∧
    (runChain (fun _ => 0)
        (fun _ => Outcome.ok
          ⟨[GoError.app (NewNotFoundError "widget")], 200, Body.empty⟩)
        ⟨"GET", "/api/v1/widgets", [], "10.0.0.1"⟩).body =
      Body.json { error := (NewNotFoundError "widget").Code,
                  message := (NewNotFoundError "widget").Message,
                  statusCode := (NewNotFoundError "widget").StatusCode,
                  traceId := chainTraceID (fun _ => 0)
                    ⟨"GET", "/api/v1/widgets", [], "10.0.0.1"⟩,
                  details := (NewNotFoundError "widget").Details } ∧
    ⟨LogLevel.warn, "application error",
        [("code", (NewNotFoundError "widget").Code),
         ("message", (NewNotFoundError "widget").Message),
         ("statusCode", toString (NewNotFoundError "widget").StatusCode)]⟩ ∈
      (runChain (fun _ => 0)
        (fun _ => Outcome.ok
          ⟨[GoError.app (NewNotFoundError "widget")], 200, Body.empty⟩)
        ⟨"GET", "/api/v1/widgets", [], "10.0.0.1"⟩).logs :=
  C3_apperror_envelope (fun _ => 0)
    (fun _ => Outcome.ok
      ⟨[GoError.app (NewNotFoundError "widget")], 200, Body.empty⟩)
    ⟨"GET", "/api/v1/widgets", [], "10.0.0.1"⟩
    ⟨[GoError.app (NewNotFoundError "widget")], 200, Body.empty⟩
    (NewNotFoundError "widget") rfl rfl

/-- Claim C6: the chosen trace identifier always ends up in the X-Trace-ID
response header and in the request-scoped state; it is the inbound header
value when that is non-empty (the lookup in getHeader being
case-insensitive), and otherwise a freshly generated string of exactly 16
alphanumeric characters; every envelope the middleware renders, on the
recorded-error path and on the panic path, carries that identifier. -/
theorem C6_trace_roundtrip (clock : Nat → Nat) (handler : Request → Outcome)
    (req : Request) :
    (runChain clock handler req).respHeaders =
      [("X-Trace-ID", chainTraceID clock req)] ∧
    getTraceID (runChain clock handler req).keys =
      some (chainTraceID clock req) ∧
    (getHeader req.headers "X-Trace-ID" ≠ "" →
      chainTraceID clock req = getHeader req.headers "X-Trace-ID") ∧
    (getHeader req.headers "X-Trace-ID" = "" →
      (chainTraceID clock req).length = 16 ∧
      ∀ c ∈ (chainTraceID clock req).toList, c.isAlphanum = true) ∧
    (∀ v es, handler req = Outcome.panicked v es →
      ∃ env, (runChain clock handler req).body = Body.json env ∧
        env.traceId = chainTraceID clock req) ∧
    (∀ run e, handler req = Outcome.ok run →
      run.errors.getLast? = some e →
      ∃ env, (runChain clock handler req).body = Body.json env ∧
        env.traceId = chainTraceID clock req) := by
  refine ⟨runChain_respHeaders clock handler req, ?_, ?_, ?_, ?_, ?_⟩
  · rw [runChain_keys]
    exact getTraceID_chainKeys clock req
  · intro hne
    simp [chainTraceID, hne]
  · intro h0
    constructor
    · simp only [chainTraceID, h0, if_pos]
      exact randomString_length _ 16
    · simp only [chainTraceID, h0, if_pos]
      exact randomString_alphanum _ 16
  · intro v es hh
    refine ⟨internalErrorResponse (chainTraceID clock req), ?_, rfl⟩
    simp [runChain, hh, getTraceID_chainKeys]
  · intro run e hh hl
    have hne := isEmpty_false_of_getLast run.errors _ hl
    cases e with
    | app ae =>
        refine ⟨renderAppError ae (chainTraceID clock req), ?_, rfl⟩
        have hsome : handleError (chainKeys clock req) run.errors =
            some (ae.StatusCode,
              renderAppError ae (chainTraceID clock req),
              ⟨LogLevel.warn, "application error",
                [("code", ae.Code), ("message", ae.Message),
                 ("statusCode", toString ae.StatusCode)]⟩) := by
          unfold handleError
          rw [hl, getTraceID_chainKeys]
        simp [runChain, hh, hne, hsome]
    | other s =>
        refine ⟨internalErrorResponse (chainTraceID clock req), ?_, rfl⟩
        have hsome : handleError (chainKeys clock req) run.errors =
            some (StatusInternalServerError,
              internalErrorResponse (chainTraceID clock req),
              ⟨LogLevel.error, "unknown error", [("error", s)]⟩) := by
          unfold handleError
          rw [hl, getTraceID_chainKeys]
        simp [runChain, hh, hne, hsome]

/-- Witness for C6: a request carrying an inbound trace header in lower
case, and a request without one. -/
theorem C6_trace_roundtrip_witness :
    (runChain (fun _ => 0) (fun _ => Outcome.ok ⟨[], 200, Body.empty⟩)
        ⟨"GET", "/health", [("x-trace-id", "abc123")],
          "127.0.0.1"⟩).respHeaders =
      [("X-Trace-ID", chainTraceID (fun _ => 0)
        ⟨"GET", "/health", [("x-trace-id", "abc123")], "127.0.0.1"⟩)] ∧
    chainTraceID (fun _ => 0)
        ⟨"GET", "/health", [("x-trace-id", "abc123")], "127.0.0.1"⟩ =
      getHeader [("x-trace-id", "abc123")] "X-Trace-ID" ∧
    (chainTraceID (fun _ => 0) ⟨"GET", "/health", [], "127.0.0.1"⟩).length =
      16 :=
  ⟨(C6_trace_roundtrip (fun _ => 0)
      (fun _ => Outcome.ok ⟨[], 200, Body.empty⟩)
      ⟨"GET", "/health", [("x-trace-id", "abc123")], "127.0.0.1"⟩).1,
   (C6_trace_roundtrip (fun _ => 0)
      (fun _ => Outcome.ok ⟨[], 200, Body.empty⟩)
      ⟨"GET", "/health", [("x-trace-id", "abc123")], "127.0.0.1"⟩).2.2.1
     (by decide),
   ((C6_trace_roundtrip (fun _ => 0)
      (fun _ => Outcome.ok ⟨[], 200, Body.empty⟩)
      ⟨"GET", "/health", [], "127.0.0.1"⟩).2.2.2.1 (by decide)).1⟩

theorem handleError_msg (keys : CtxKeys) (errs : List GoError) (st : Nat)
    (env : ErrorResponse) (lr : LogRecord)
    (h : handleError keys errs = some (st, env, lr)) :
    lr.msg = "application error" ∨ lr.msg = "unknown error" := by
  rcases hl : errs.getLast? with _ | e
  · simp [handleError, hl] at h
  · rcases htid : getTraceID keys with _ | tid
    · cases e <;> simp [handleError, hl, htid] at h
    · cases e with
      | app ae =>
          simp [handleError, hl, htid] at h
          left
          rw [← h.2.2]
      | other s =>
          simp [handleError, hl, htid] at h
          right
          rw [← h.2.2]

/-- Claim C7 as stated fails twice.  First, on the panic path: the chain
registers the error middleware before the logging middleware, so a panic
raised by the handler unwinds past the log statement of
requestLoggingMiddleware (which has no deferred teardown) before the
recovery boundary fires, and this concrete panicking request produces only
the panic-recovered record, no completed-request record at all.  Second,
on the recorded-error path the log statement runs before handleError, so
this concrete request recording a not-found AppError receives a 404
response while its one completed-request record carries the pre-rendering
status 200: the record does not contain the resulting status code. -/
theorem C7_counterexample :
    ((runChain (fun _ => 0) (fun _ => Outcome.panicked "boom" [])
        ⟨"GET", "/api/v1/status", [], "127.0.0.1"⟩).logs =
      [⟨LogLevel.error, "panic recovered", [("panic", "boom")]⟩]) ∧
    ((runChain (fun _ => 0)
        (fun _ => Outcome.ok
          ⟨[GoError.app (NewNotFoundError "widget")], 200, Body.empty⟩)
        ⟨"GET", "/api/v1/widgets", [], "127.0.0.1"⟩).status = 404) ∧
    ((runChain (fun _ => 0)
        (fun _ => Outcome.ok
          ⟨[GoError.app (NewNotFoundError "widget")], 200, Body.empty⟩)
        ⟨"GET", "/api/v1/widgets", [], "127.0.0.1"⟩).logs.filter
          (fun r => r.msg == "HTTP request") =
      [⟨LogLevel.info, "HTTP request",
        [("method", "GET"), ("path", "/api/v1/widgets"), ("status", "200"),
         ("duration_ms", "0"),
         ("trace_id", chainTraceID (fun _ => 0)
           ⟨"GET", "/api/v1/widgets", [], "127.0.0.1"⟩),
         ("ip", "127.0.0.1")]⟩]) := by
  refine ⟨by simp [runChain, getTraceID_chainKeys], ?_, ?_⟩
  · have hsome : handleError
        (chainKeys (fun _ => 0) ⟨"GET", "/api/v1/widgets", [], "127.0.0.1"⟩)
        [GoError.app (NewNotFoundError "widget")] =
        some ((NewNotFoundError "widget").StatusCode,
          renderAppError (NewNotFoundError "widget")
            (chainTraceID (fun _ => 0)
              ⟨"GET", "/api/v1/widgets", [], "127.0.0.1"⟩),
          ⟨LogLevel.warn, "application error",
            [("code", (NewNotFoundError "widget").Code),
             ("message", (NewNotFoundError "widget").Message),
             ("statusCode",
               toString (NewNotFoundError "widget").StatusCode)]⟩) := by
      unfold handleError
      rw [getTraceID_chainKeys]
      rfl
    simp [runChain, hsome]
    rfl
  · have hsome : handleError
        (chainKeys (fun _ => 0) ⟨"GET", "/api/v1/widgets", [], "127.0.0.1"⟩)
        [GoError.app (NewNotFoundError "widget")] =
        some ((NewNotFoundError "widget").StatusCode,
          renderAppError (NewNotFoundError "widget")
            (chainTraceID (fun _ => 0)
              ⟨"GET", "/api/v1/widgets", [], "127.0.0.1"⟩),
          ⟨LogLevel.warn, "application error",
            [("code", (NewNotFoundError "widget").Code),
             ("message", (NewNotFoundError "widget").Message),
             ("statusCode",
               toString (NewNotFoundError "widget").StatusCode)]⟩) := by
      unfold handleError
      rw [getTraceID_chainKeys]
      rfl
    simp [runChain, hsome, List.filter]
    exact ⟨by decide, by decide⟩

/-- Claim C7 (amended): on every request whose handler chain returns without
a panic, the observability middleware emits exactly one completed-request
record, carrying the method, path, the status code the response writer held
when the logging middleware resumed (the final response status when no
error was recorded, but the pre-rendering handler status when handleError
later rewrites the response, log emission running before error rendering),
the duration in milliseconds, the trace identifier and the caller address;
when the handler panics, the panic unwinds past the logging middleware
before the recovery boundary fires and no completed-request record is
emitted. -/
theorem C7_request_log (clock : Nat → Nat) (handler : Request → Outcome)
    (req : Request) :
    (∀ run, handler req = Outcome.ok run →
      ((runChain clock handler req).logs.filter
          (fun r => r.msg == "HTTP request")) =
        [⟨LogLevel.info, "HTTP request",
          [("method", req.method), ("path", req.path),
           ("status", toString run.status),
           ("duration_ms", toString ((clock 17 - clock 0) / 1000000)),
           ("trace_id", chainTraceID clock req), ("ip", req.clientIP)]⟩]) ∧
    (∀ v es, handler req = Outcome.panicked v es →
      ((runChain clock handler req).logs.filter
          (fun r => r.msg == "HTTP request")) = []) := by
  constructor
  · intro run hh
    cases he : run.errors.isEmpty
    · rcases hhe : handleError (chainKeys clock req) run.errors with
        _ | ⟨st, env, lr⟩
      · simp [runChain, hh, he, hhe, List.filter]
      · have hmsg := handleError_msg _ _ _ _ _ hhe
        have hfalse : (lr.msg == "HTTP request") = false := by
          rcases hmsg with h1 | h1 <;> rw [h1] <;> decide
        simp [runChain, hh, he, hhe, List.filter, hfalse]
    · simp [runChain, hh, he, List.filter]
  · intro v es hh
    simp [runChain, hh, getTraceID_chainKeys, List.filter]

/-- Witness for the amended C7: a concrete non-panicking handler. -/
theorem C7_request_log_witness :
    ((runChain (fun _ => 0) (fun _ => Outcome.ok ⟨[], 200, Body.empty⟩)
        ⟨"GET", "/health", [], "127.0.0.1"⟩).logs.filter
        (fun r => r.msg == "HTTP request")) =
      [⟨LogLevel.info, "HTTP request",
        [("method", "GET"), ("path", "/health"), ("status", toString 200),
         ("duration_ms", toString ((0 - 0) / 1000000)),
         ("trace_id", chainTraceID (fun _ => 0)
           ⟨"GET", "/health", [], "127.0.0.1"⟩),
         ("ip", "127.0.0.1")]⟩] :=
  (C7_request_log (fun _ => 0) (fun _ => Outcome.ok ⟨[], 200, Body.empty⟩)
      ⟨"GET", "/health", [], "127.0.0.1"⟩).1
    ⟨[], 200, Body.empty⟩ rfl

/-- Claim C8: when the handler records no error (and does not panic) the
middleware passes the handler response through untouched, and when it
records several errors only the last recorded one determines the rendered
response: a handler that records only that last error produces the same
status and body. -/
theorem C8_last_write_wins (clock : Nat → Nat) (handler : Request → Outcome)
    (req : Request) (run : HandlerRun)
    (h : handler req = Outcome.ok run) :
    (run.errors = [] →
      (runChain clock handler req).status = run.status ∧
      (runChain clock handler req).body = run.body) ∧
    (∀ e (handler2 : Request → Outcome) (run2 : HandlerRun),
      run.errors.getLast? = some e → handler2 req = Outcome.ok run2 →
      run2.errors = [e] →
      (runChain clock handler2 req).status =
        (runChain clock handler req).status ∧
      (runChain clock handler2 req).body =
        (runChain clock handler req).body) := by
  constructor
  · intro he
    simp [runChain, h, he]
  · intro e handler2 run2 hl h2 he2
    have hne := isEmpty_false_of_getLast run.errors _ hl
    have hne2 : run2.errors.isEmpty = false := by
      rw [he2]
      simp
    have heq : run2.errors.getLast? = run.errors.getLast? := by
      rw [he2, hl]
      simp
    have hcongr : handleError (chainKeys clock req) run2.errors =
        handleError (chainKeys clock req) run.errors :=
      handleError_congr _ _ _ heq
    cases e with
    | app ae =>
        have hsome : handleError (chainKeys clock req) run.errors =
            some (ae.StatusCode,
              renderAppError ae (chainTraceID clock req),
              ⟨LogLevel.warn, "application error",
                [("code", ae.Code), ("message", ae.Message),
                 ("statusCode", toString ae.StatusCode)]⟩) := by
          unfold handleError
          rw [hl, getTraceID_chainKeys]
        constructor <;>
          simp [runChain, h, h2, hne, hne2, hcongr, hsome]
    | other s =>
        have hsome : handleError (chainKeys clock req) run.errors =
            some (StatusInternalServerError,
              internalErrorResponse (chainTraceID clock req),
              ⟨LogLevel.error, "unknown error", [("error", s)]⟩) := by
          unfold handleError
          rw [hl, getTraceID_chainKeys]
        constructor <;>
          simp [runChain, h, h2, hne, hne2, hcongr, hsome]

/-- Witness for C8: a handler recording two errors renders the same
response as a handler recording only the last of them. -/
theorem C8_last_write_wins_witness :
    (runChain (fun _ => 0)
        (fun _ => Outcome.ok
          ⟨[GoError.app (NewNotFoundError "widget")], 200, Body.empty⟩)
        ⟨"GET", "/w", [], "127.0.0.1"⟩).status =
      (runChain (fun _ => 0)
        (fun _ => Outcome.ok
          ⟨[GoError.other "first", GoError.app (NewNotFoundError "widget")],
            200, Body.empty⟩)
        ⟨"GET", "/w", [], "127.0.0.1"⟩).status ∧
    (runChain (fun _ => 0)
        (fun _ => Outcome.ok
          ⟨[GoError.app (NewNotFoundError "widget")], 200, Body.empty⟩)
        ⟨"GET", "/w", [], "127.0.0.1"⟩).body =
      (runChain (fun _ => 0)
        (fun _ => Outcome.ok
          ⟨[GoError.other "first", GoError.app (NewNotFoundError "widget")],
            200, Body.empty⟩)
        ⟨"GET", "/w", [], "127.0.0.1"⟩).body :=
  (C8_last_write_wins (fun _ => 0)
      (fun _ => Outcome.ok
        ⟨[GoError.other "first", GoError.app (NewNotFoundError "widget")],
          200, Body.empty⟩)
      ⟨"GET", "/w", [], "127.0.0.1"⟩
      ⟨[GoError.other "first", GoError.app (NewNotFoundError "widget")],
        200, Body.empty⟩ rfl).2
    (GoError.app (NewNotFoundError "widget"))
    (fun _ => Outcome.ok
      ⟨[GoError.app (NewNotFoundError "widget")], 200, Body.empty⟩)
    ⟨[GoError.app (NewNotFoundError "widget")], 200, Body.empty⟩
    rfl rfl rfl

/-- Claim C10: getTraceID is total on every context whose traceId key is
unset (returning the empty string) or holds a string (returning it); the
unchecked type assertion faults exactly on a non-string value; and along
the middleware chain the only writer, requestLoggingMiddleware, always
stores a string, so the faulting case is unreachable there. -/
theorem C10_getTraceID_total (keys : CtxKeys) :
    (ctxGet keys "traceId" = none → getTraceID keys = some "") ∧
    (∀ s, ctxGet keys "traceId" = some (CtxValue.str s) →
      getTraceID keys = some s) ∧
    (ctxGet keys "traceId" = some CtxValue.nonString →
      getTraceID keys = none) ∧
    (∀ (clock : Nat → Nat) (handler : Request → Outcome) (req : Request),
      ctxGet (runChain clock handler req).keys "traceId" =
        some (CtxValue.str (chainTraceID clock req))) := by
  refine ⟨?_, ?_, ?_, ?_⟩
  · intro h
    simp [getTraceID, h]
  · intro s h
    simp [getTraceID, h]
  · intro h
    simp [getTraceID, h]
  · intro clock handler req
    rw [runChain_keys]
    simp [chainKeys, ctxSet, ctxGet, List.lookup]

/-- Witness for C10: the empty context is unset, so getTraceID returns the
empty string. -/
theorem C10_getTraceID_total_witness : getTraceID [] = some "" :=
  (C10_getTraceID_total []).1 rfl

end Notilius
